import Mathlib

/-!
Verification of the ESG Quantitative Screening engine.

The definitions below are a shallow embedding of the core logic of
`src/app.py` and `src/config.py`:

* fund records are rows of the combined YCharts dataframe, with the
  composite score column `FI ESG Quant Screen Scoring System` modelled as
  `Option ℚ` (`none` is pandas `NaN`);
* `calculate_category_percentile` embeds the groupby/rank step of
  `app.py` lines 79-85: pandas `rank(ascending=False, pct=True) * 100`
  with the default `method='average'` and `na_option='keep'`, where the
  `pct` denominator counts only the non-NaN values of the group;
* `fundStatus` embeds the status lambdas of `app.py` lines 152-156 and
  241-245, including the float-NaN comparison semantics (`NaN <= b` is
  false);
* the drift comparison, alert bands, alert filtering and sorting embed
  `app.py` lines 189-222;
* the portfolio reconciliation counts embed `app.py` lines 134-141;
* `METRIC_WEIGHTS` and `PERCENTILE_THRESHOLDS` embed `src/config.py`,
  and `loadConfig` embeds the module body of `config.py`, which binds the
  configuration tables and performs no validation.
-/

/-- Row of the combined screening dataframe. `score` is the
`FI ESG Quant Screen Scoring System` column; `none` models a missing or
non-numeric (NaN) composite score. -/
structure FundRecord where
  symbol : String
  name : String
  category : String
  score : Option ℚ
deriving DecidableEq, Repr

/-- Rows of the universe belonging to one `Morningstar Category` group
(the groupby partition of `app.py` line 84). -/
def categoryGroup (univ : List FundRecord) (c : String) : List FundRecord :=
  univ.filter (fun r => decide (r.category = c))

/-- Non-NaN composite scores of a group; these are the values pandas
`rank` actually ranks, and their number is the `pct` denominator. -/
def scoredScores (g : List FundRecord) : List ℚ :=
  g.filterMap FundRecord.score

/-- Number of scores in the group strictly greater than `v` (the rows
ranked ahead of `v` under `ascending=False`). -/
def countGreater (scores : List ℚ) (v : ℚ) : ℕ :=
  scores.countP (fun w => decide (v < w))

/-- Number of scores in the group equal to `v` (the tie block of `v`). -/
def countTied (scores : List ℚ) (v : ℚ) : ℕ :=
  scores.countP (fun w => decide (w = v))

/-- Pandas descending rank with `method='average'`: the ties of `v`
occupy consecutive descending positions after the strictly greater
values, and each receives the average of those positions. -/
def descAvgRank (scores : List ℚ) (v : ℚ) : ℚ :=
  (countGreater scores v : ℚ) + ((countTied scores v : ℚ) + 1) / 2

/-- Pandas `rank(ascending=False, pct=True) * 100` applied to one cell:
NaN stays NaN (`na_option='keep'`), a numeric value is ranked against
the group's non-NaN scores and divided by their count. -/
def pandasRankDescPct (scores : List ℚ) (x : Option ℚ) : Option ℚ :=
  match x with
  | none => none
  | some v => some (descAvgRank scores v / (scores.length : ℚ) * 100)

/-- The `Category_Percentile` value assigned to row `r` by
`calculate_category_percentile` in `app.py` lines 79-85 when the
universe is `univ`. -/
def calculate_category_percentile (univ : List FundRecord) (r : FundRecord) : Option ℚ :=
  pandasRankDescPct (scoredScores (categoryGroup univ r.category)) r.score

/-- The only per-load summary the dashboard emits after ranking: the
success message `Loaded N funds` of `app.py` line 87 reports the total
row count of the combined dataframe. -/
def loadMessageCount (univ : List FundRecord) : ℕ :=
  univ.length

/-- Number of records whose composite score is missing (NaN).  This
follows the claim's words (the count of records skipped as unscored);
the code itself never computes it. -/
def unscoredCount (univ : List FundRecord) : ℕ :=
  (univ.filter (fun r => decide (r.score = none))).length

/-- Qualification tier produced by the status lambdas of `app.py`
(the strings `Elite`, `Review`, `Replace`). -/
inductive Tier where
  | elite
  | review
  | replace
deriving DecidableEq, Repr

/-- Key of the elite threshold in `PERCENTILE_THRESHOLDS`. -/
def eliteKey : String := "elite"

/-- Key of the review threshold in `PERCENTILE_THRESHOLDS`. -/
def reviewKey : String := "review"

/-- Key of the replace threshold in `PERCENTILE_THRESHOLDS`. -/
def replaceKey : String := "replace"

/-- The `PERCENTILE_THRESHOLDS` table of `src/config.py` lines 26-30. -/
def PERCENTILE_THRESHOLDS : List (String × ℚ) :=
  [(eliteKey, 25), (reviewKey, 50), (replaceKey, 100)]

/-- Threshold lookup `config.PERCENTILE_THRESHOLDS[name]`. -/
def thresholdOf (k : String) : ℚ :=
  (PERCENTILE_THRESHOLDS.lookup k).getD 0

/-- Float comparison `x <= b` when `x` may be NaN: any comparison with
NaN is false. -/
def nanLE (x : Option ℚ) (b : ℚ) : Bool :=
  match x with
  | none => false
  | some v => decide (v ≤ b)

/-- The status lambda of `app.py` lines 241-245 (identical to lines
152-156): `Elite` if the percentile is at most the elite threshold,
else `Review` if at most the review threshold, else `Replace`. -/
def fundStatus (x : Option ℚ) : Tier :=
  if nanLE x (thresholdOf eliteKey) then Tier.elite
  else if nanLE x (thresholdOf reviewKey) then Tier.review
  else Tier.replace

/-- Threshold-table key corresponding to each tier. -/
def tierKey : Tier → String
  | Tier.elite => eliteKey
  | Tier.review => reviewKey
  | Tier.replace => replaceKey

/-- Tier selection rule as the specification words it: the first entry
of the ordered threshold table whose upper bound is at least the
percentile. -/
def firstTierUpperBoundGE (ts : List (String × ℚ)) (p : ℚ) : Option String :=
  (ts.find? (fun nb => decide (p ≤ nb.2))).map Prod.fst

/-- One row of the quarter-over-quarter `comparison` dataframe
(`app.py` lines 190-195): a symbol with its current and previous
`FI ESG Quant Percentile Screen` values. -/
structure DriftRow where
  symbol : String
  curPct : ℚ
  prevPct : ℚ
deriving DecidableEq, Repr

/-- Pandas `merge(..., on='Symbol', how='inner')` of `app.py` lines
190-195: for each current row, in left order, one output row per
previous row with the same symbol. -/
def innerJoinOnSymbol (cur prev : List (String × ℚ)) : List DriftRow :=
  cur.flatMap (fun c =>
    (prev.filter (fun p => p.1 == c.1)).map (fun p => ⟨c.1, c.2, p.2⟩))

/-- The `Percentile_Change` column of `app.py` lines 197-200: current
minus previous percentile. -/
def percentileChange (row : DriftRow) : ℚ :=
  row.curPct - row.prevPct

/-- Alert label assigned by the lambda of `app.py` lines 202-207. -/
inductive Alert where
  | deteriorated
  | watchlist
  | minorChange
  | stable
deriving DecidableEq, Repr

/-- The alert lambda of `app.py` lines 202-207: `Deteriorated` when the
change exceeds 25, `Watchlist` when it exceeds 15, `Minor Change` when
it exceeds 5, otherwise `Stable/Improved`. -/
def alertOf (x : ℚ) : Alert :=
  if 25 < x then Alert.deteriorated
  else if 15 < x then Alert.watchlist
  else if 5 < x then Alert.minorChange
  else Alert.stable

/-- The `isin(['Deteriorated', 'Watchlist'])` filter condition of
`app.py` line 209. -/
def isFlagged (row : DriftRow) : Bool :=
  decide (alertOf (percentileChange row) = Alert.deteriorated)
    || decide (alertOf (percentileChange row) = Alert.watchlist)

/-- The `alerts` dataframe of `app.py` line 209: comparison rows whose
alert is `Deteriorated` or `Watchlist`. -/
def driftAlerts (rows : List DriftRow) : List DriftRow :=
  rows.filter isFlagged

/-- Descending order on `Percentile_Change`, the sort key of
`sort_values('Percentile_Change', ascending=False)` at `app.py`
line 219. -/
def deltaDescRel (a b : DriftRow) : Prop :=
  percentileChange b ≤ percentileChange a

instance : DecidableRel deltaDescRel :=
  fun a b => inferInstanceAs (Decidable (percentileChange b ≤ percentileChange a))

instance : IsTotal DriftRow deltaDescRel :=
  ⟨fun a b => le_total (percentileChange b) (percentileChange a)⟩

instance : IsTrans DriftRow deltaDescRel :=
  ⟨fun _ _ _ hab hbc => le_trans hbc hab⟩

/-- The dataframe displayed at `app.py` lines 218-222: the flagged
alerts sorted by `Percentile_Change` descending. -/
def displayedAlerts (cur prev : List (String × ℚ)) : List DriftRow :=
  List.insertionSort deltaDescRel (driftAlerts (innerJoinOnSymbol cur prev))

/-- Everything the quarter-over-quarter section reports to the caller:
the flagged-fund count of the warning at `app.py` line 212 and the
sorted alert table of lines 218-222. -/
def driftReport (cur prev : List (String × ℚ)) : ℕ × List DriftRow :=
  ((driftAlerts (innerJoinOnSymbol cur prev)).length, displayedAlerts cur prev)

/-- Number of symbols present on exactly one side of the comparison.
This follows the claim's words (the exclusion count said to be exposed);
the code itself never computes it. -/
def specOneSideOnlyCount (cur prev : List (String × ℚ)) : ℕ :=
  (((cur.map Prod.fst).toFinset) \ ((prev.map Prod.fst).toFinset)).card
    + (((prev.map Prod.fst).toFinset) \ ((cur.map Prod.fst).toFinset)).card

/-- The `matches` set of `app.py` line 137: intersection of the unique
holding tickers with the unique screening symbols. -/
def reconcileMatches (holdings univSyms : List String) : Finset String :=
  holdings.toFinset ∩ univSyms.toFinset

/-- The metric shown at `app.py` lines 140-141: the pair
`(len(matches), len(current_tickers))` displayed as `k/n`. -/
def reconcileCounts (holdings univSyms : List String) : ℕ × ℕ :=
  ((reconcileMatches holdings univSyms).card, holdings.toFinset.card)

/-- The `METRIC_WEIGHTS` table of `src/config.py` lines 7-22. -/
def METRIC_WEIGHTS : List (String × ℚ) :=
  [("MSCI ESG Environmental Score", 0.20),
   ("ESG Score Environmental Weight (%)", 0.15),
   ("Fund Weighted Average Carbon Intensity", 0.20),
   ("Financed Carbon Emissions (Carbon Emissions / USD Million Invested)", 0.10),
   ("Fossil Fuels Reserve (%)", 0.15),
   ("MSCI ESG Score", 0.05),
   ("Fund ESG Leaders (%)", 0.05),
   ("MSCI Fund ESG Trend Positive (%)", 0.05),
   ("Fund ESG Laggards (%)", 0.03),
   ("Controversial Weapons Involvement (%)", 0.01),
   ("MSCI ESG Governance Score", 0.01)]

/-- Loading the configuration module: the module body of
`src/config.py` binds the weight and threshold tables unconditionally
and performs no validation, so loading any candidate tables succeeds. -/
def loadConfig (w t : List (String × ℚ)) :
    Except String (List (String × ℚ) × List (String × ℚ)) :=
  Except.ok (w, t)

lemma countGreater_add_countTied_le (scores : List ℚ) (v : ℚ) :
    countGreater scores v + countTied scores v ≤ scores.length := by
  unfold countGreater countTied
  induction scores with
  | nil => simp
  | cons a l ih =>
    simp only [List.countP_cons, List.length_cons]
    by_cases h1 : v < a <;> by_cases h2 : a = v <;> simp [h1, h2] <;> omega

lemma countTied_pos_of_mem {scores : List ℚ} {v : ℚ} (h : v ∈ scores) :
    0 < countTied scores v := by
  unfold countTied
  exact List.countP_pos_iff.2 ⟨v, h, by simp⟩

lemma sum_range_add_one (n : ℕ) :
    ∑ k ∈ Finset.range n, ((k : ℚ) + 1) = (n * (n + 1)) / 2 := by
  induction n with
  | zero => simp
  | succ m ih =>
    rw [Finset.sum_range_succ, ih]
    push_cast
    ring

/-- C1: within each category partition, counting only the records with a
numeric composite score, the percentile assigned to a scored fund is its
average-of-tied-descending-ranks divided by the number `N` of scored
records of the category times 100 (the average rank times the tie-block
size equals the sum of the consecutive descending positions the tie
block occupies); any two funds of the same category with equal composite
score receive the same percentile; and every assigned percentile lies in
`(0, 100]`. -/
theorem C1_category_percentile_correct (univ : List FundRecord) (r : FundRecord) (v : ℚ)
    (hr : r ∈ univ) (hv : r.score = some v) :
    (∃ p, calculate_category_percentile univ r = some p ∧ 0 < p ∧ p ≤ 100 ∧
        p = descAvgRank (scoredScores (categoryGroup univ r.category)) v
              / ((scoredScores (categoryGroup univ r.category)).length : ℚ) * 100 ∧
        descAvgRank (scoredScores (categoryGroup univ r.category)) v
            * (countTied (scoredScores (categoryGroup univ r.category)) v : ℚ)
          = ∑ k ∈ Finset.range (countTied (scoredScores (categoryGroup univ r.category)) v),
              ((countGreater (scoredScores (categoryGroup univ r.category)) v : ℚ) + (k : ℚ) + 1)) ∧
    (∀ r', r' ∈ univ → r'.category = r.category → r'.score = some v →
        calculate_category_percentile univ r' = calculate_category_percentile univ r) := by
  have hmemg : r ∈ categoryGroup univ r.category := by
    unfold categoryGroup
    exact List.mem_filter.2 ⟨hr, by simp⟩
  have hvs : v ∈ scoredScores (categoryGroup univ r.category) := by
    unfold scoredScores
    exact List.mem_filterMap.2 ⟨r, hmemg, hv⟩
  set sc := scoredScores (categoryGroup univ r.category) with hsc
  have hm : 0 < countTied sc v := countTied_pos_of_mem hvs
  have hcm : countGreater sc v + countTied sc v ≤ sc.length :=
    countGreater_add_countTied_le sc v
  have hN : 0 < sc.length := lt_of_lt_of_le hm (le_trans (Nat.le_add_left _ _) hcm)
  have hmQ : (1 : ℚ) ≤ (countTied sc v : ℚ) := by exact_mod_cast hm
  have hcmQ : (countGreater sc v : ℚ) + (countTied sc v : ℚ) ≤ (sc.length : ℚ) := by
    exact_mod_cast hcm
  have hNQ : (0 : ℚ) < (sc.length : ℚ) := by exact_mod_cast hN
  have hcomp : calculate_category_percentile univ r
      = some (descAvgRank sc v / (sc.length : ℚ) * 100) := by
    show pandasRankDescPct sc r.score = _
    rw [hv]
    rfl
  refine ⟨⟨descAvgRank sc v / (sc.length : ℚ) * 100, hcomp, ?_, ?_, rfl, ?_⟩, ?_⟩
  · have hrank : (0 : ℚ) < descAvgRank sc v := by
      unfold descAvgRank
      positivity
    exact mul_pos (div_pos hrank hNQ) (by norm_num)
  · have h1 : descAvgRank sc v ≤ (sc.length : ℚ) := by
      unfold descAvgRank
      have h2 : ((countTied sc v : ℚ) + 1) / 2 ≤ (countTied sc v : ℚ) := by linarith
      linarith
    have h3 : descAvgRank sc v / (sc.length : ℚ) ≤ 1 := (div_le_one hNQ).2 h1
    have h4 := mul_le_mul_of_nonneg_right h3 (by norm_num : (0 : ℚ) ≤ 100)
    simpa using h4
  · have h1 : ∑ k ∈ Finset.range (countTied sc v), ((countGreater sc v : ℚ) + (k : ℚ) + 1)
        = (∑ k ∈ Finset.range (countTied sc v), ((k : ℚ) + 1))
          + (∑ _k ∈ Finset.range (countTied sc v), (countGreater sc v : ℚ)) := by
      rw [← Finset.sum_add_distrib]
      exact Finset.sum_congr rfl (fun k _ => by ring)
    rw [h1, sum_range_add_one, Finset.sum_const, Finset.card_range, nsmul_eq_mul]
    unfold descAvgRank
    ring
  · intro r' hr' hcat hs'
    unfold calculate_category_percentile
    rw [hcat, hs', hv]

/-- Witness for C1 at a concrete two-fund universe. -/
theorem C1_category_percentile_correct_witness :
    ((⟨"A", "FundA", "X", some 9⟩ : FundRecord)
        ∈ [(⟨"A", "FundA", "X", some 9⟩ : FundRecord), ⟨"B", "FundB", "X", some 5⟩])
    ∧ (FundRecord.score ⟨"A", "FundA", "X", some 9⟩ = some 9)
    ∧ ((∃ p, calculate_category_percentile
            [(⟨"A", "FundA", "X", some 9⟩ : FundRecord), ⟨"B", "FundB", "X", some 5⟩]
            ⟨"A", "FundA", "X", some 9⟩ = some p ∧ 0 < p ∧ p ≤ 100 ∧
          p = descAvgRank (scoredScores (categoryGroup
                  [(⟨"A", "FundA", "X", some 9⟩ : FundRecord), ⟨"B", "FundB", "X", some 5⟩]
                  (FundRecord.category ⟨"A", "FundA", "X", some 9⟩))) 9
                / ((scoredScores (categoryGroup
                    [(⟨"A", "FundA", "X", some 9⟩ : FundRecord), ⟨"B", "FundB", "X", some 5⟩]
                    (FundRecord.category ⟨"A", "FundA", "X", some 9⟩))).length : ℚ) * 100 ∧
          descAvgRank (scoredScores (categoryGroup
                  [(⟨"A", "FundA", "X", some 9⟩ : FundRecord), ⟨"B", "FundB", "X", some 5⟩]
                  (FundRecord.category ⟨"A", "FundA", "X", some 9⟩))) 9
              * (countTied (scoredScores (categoryGroup
                  [(⟨"A", "FundA", "X", some 9⟩ : FundRecord), ⟨"B", "FundB", "X", some 5⟩]
                  (FundRecord.category ⟨"A", "FundA", "X", some 9⟩))) 9 : ℚ)
            = ∑ k ∈ Finset.range (countTied (scoredScores (categoryGroup
                  [(⟨"A", "FundA", "X", some 9⟩ : FundRecord), ⟨"B", "FundB", "X", some 5⟩]
                  (FundRecord.category ⟨"A", "FundA", "X", some 9⟩))) 9),
                ((countGreater (scoredScores (categoryGroup
                  [(⟨"A", "FundA", "X", some 9⟩ : FundRecord), ⟨"B", "FundB", "X", some 5⟩]
                  (FundRecord.category ⟨"A", "FundA", "X", some 9⟩))) 9 : ℚ) + (k : ℚ) + 1)) ∧
        (∀ r', r' ∈ [(⟨"A", "FundA", "X", some 9⟩ : FundRecord), ⟨"B", "FundB", "X", some 5⟩]
            → r'.category = FundRecord.category ⟨"A", "FundA", "X", some 9⟩
            → r'.score = some 9
            → calculate_category_percentile
                [(⟨"A", "FundA", "X", some 9⟩ : FundRecord), ⟨"B", "FundB", "X", some 5⟩] r'
              = calculate_category_percentile
                [(⟨"A", "FundA", "X", some 9⟩ : FundRecord), ⟨"B", "FundB", "X", some 5⟩]
                ⟨"A", "FundA", "X", some 9⟩)) :=
  ⟨by decide, rfl,
    C1_category_percentile_correct
      [⟨"A", "FundA", "X", some 9⟩, ⟨"B", "FundB", "X", some 5⟩]
      ⟨"A", "FundA", "X", some 9⟩ 9 (by decide) rfl⟩

/-- C2: with the configured thresholds (elite 25, review 50,
replace 100), the status lambda assigns Elite exactly when the
percentile is at most 25, Review exactly when it is in (25, 50], and
Replace exactly when it exceeds 50; for every percentile at most 100
this agrees with the rule "first tier of the ordered threshold table
whose upper bound is at least the percentile"; and a percentile of
exactly 100 is still classified (Replace), not an error. -/
theorem C2_tier_classification :
    (∀ p : ℚ,
      (fundStatus (some p) = Tier.elite ↔ p ≤ 25)
      ∧ (fundStatus (some p) = Tier.review ↔ 25 < p ∧ p ≤ 50)
      ∧ (fundStatus (some p) = Tier.replace ↔ 50 < p))
    ∧ (∀ p : ℚ, p ≤ 100 →
        firstTierUpperBoundGE PERCENTILE_THRESHOLDS p
          = some (tierKey (fundStatus (some p))))
    ∧ fundStatus (some 100) = Tier.replace := by
  have he : thresholdOf eliteKey = 25 := by decide
  have hrv : thresholdOf reviewKey = 50 := by decide
  refine ⟨?_, ?_, ?_⟩
  · intro p
    have hs : fundStatus (some p)
        = (if p ≤ 25 then Tier.elite else if p ≤ 50 then Tier.review else Tier.replace) := by
      simp [fundStatus, nanLE, he, hrv]
    rw [hs]
    refine ⟨?_, ?_, ?_⟩ <;> split_ifs with h1 h2 <;> simp <;>
      first
        | assumption
        | linarith
        | (constructor <;> linarith)
        | (intro hh; linarith)
  · intro p hp
    by_cases h1 : p ≤ 25 <;> by_cases h2 : p ≤ 50 <;>
      simp [firstTierUpperBoundGE, PERCENTILE_THRESHOLDS, List.find?,
        fundStatus, nanLE, tierKey, he, hrv, h1, h2, hp]
  · have h1 : ¬ ((100 : ℚ) ≤ 25) := by norm_num
    have h2 : ¬ ((100 : ℚ) ≤ 50) := by norm_num
    simp [fundStatus, nanLE, he, hrv, h1, h2]

/-- Witness for C2 at percentile 40. -/
theorem C2_tier_classification_witness :
    ((40 : ℚ) ≤ 100)
    ∧ firstTierUpperBoundGE PERCENTILE_THRESHOLDS 40
        = some (tierKey (fundStatus (some 40))) :=
  ⟨by norm_num, C2_tier_classification.2.1 40 (by norm_num)⟩

/-- C3: every row of the inner-joined comparison pairs a current and a
previous percentile of the same symbol and its `Percentile_Change` is
current minus previous; the alert lambda implements the strict bands
(change > 25 Deteriorated, 15 < change ≤ 25 Watchlist,
5 < change ≤ 15 Minor Change, change ≤ 5 Stable); and a fund moving
from percentile 50 to percentile 80 has change +30 and the Deteriorated
alert. -/
theorem C3_drift_delta_and_alert (cur prev : List (String × ℚ)) (row : DriftRow)
    (hrow : row ∈ innerJoinOnSymbol cur prev) :
    (∃ c, c ∈ cur ∧ ∃ p, p ∈ prev ∧ c.1 = row.symbol ∧ p.1 = row.symbol
        ∧ percentileChange row = c.2 - p.2)
    ∧ (∀ d : ℚ,
        (alertOf d = Alert.deteriorated ↔ 25 < d)
        ∧ (alertOf d = Alert.watchlist ↔ 15 < d ∧ d ≤ 25)
        ∧ (alertOf d = Alert.minorChange ↔ 5 < d ∧ d ≤ 15)
        ∧ (alertOf d = Alert.stable ↔ d ≤ 5))
    ∧ (percentileChange ⟨row.symbol, 80, 50⟩ = 30
        ∧ alertOf (percentileChange ⟨row.symbol, 80, 50⟩) = Alert.deteriorated) := by
  refine ⟨?_, ?_, ?_⟩
  · unfold innerJoinOnSymbol at hrow
    rcases List.mem_flatMap.1 hrow with ⟨c, hc, hmap⟩
    rcases List.mem_map.1 hmap with ⟨p, hp, hrow'⟩
    rcases List.mem_filter.1 hp with ⟨hpmem, hpeq⟩
    have hps : p.1 = c.1 := by simpa using hpeq
    refine ⟨c, hc, p, hpmem, ?_, ?_, ?_⟩ <;> rw [← hrow'] <;>
      simp [percentileChange, hps]
  · intro d
    have hs : alertOf d
        = (if 25 < d then Alert.deteriorated else if 15 < d then Alert.watchlist
            else if 5 < d then Alert.minorChange else Alert.stable) := rfl
    rw [hs]
    refine ⟨?_, ?_, ?_, ?_⟩ <;> split_ifs with h1 h2 h3 <;> simp <;>
      first
        | assumption
        | linarith
        | (constructor <;> linarith)
        | (intro hh; linarith)
  · constructor
    · simp [percentileChange]
      norm_num
    · have h30 : percentileChange ⟨row.symbol, 80, 50⟩ = 30 := by
        simp [percentileChange]
        norm_num
      rw [h30]
      have h25 : (25 : ℚ) < 30 := by norm_num
      simp [alertOf, h25]

/-- Witness for C3 on the single-symbol comparison with current
percentile 80 and previous percentile 50. -/
theorem C3_drift_delta_and_alert_witness :
    ((⟨"S", 80, 50⟩ : DriftRow) ∈ innerJoinOnSymbol [("S", 80)] [("S", 50)])
    ∧ ((∃ c, c ∈ [(("S" : String), (80 : ℚ))] ∧ ∃ p, p ∈ [(("S" : String), (50 : ℚ))]
          ∧ c.1 = DriftRow.symbol ⟨"S", 80, 50⟩ ∧ p.1 = DriftRow.symbol ⟨"S", 80, 50⟩
          ∧ percentileChange ⟨"S", 80, 50⟩ = c.2 - p.2)
        ∧ (∀ d : ℚ,
            (alertOf d = Alert.deteriorated ↔ 25 < d)
            ∧ (alertOf d = Alert.watchlist ↔ 15 < d ∧ d ≤ 25)
            ∧ (alertOf d = Alert.minorChange ↔ 5 < d ∧ d ≤ 15)
            ∧ (alertOf d = Alert.stable ↔ d ≤ 5))
        ∧ (percentileChange ⟨DriftRow.symbol ⟨"S", 80, 50⟩, 80, 50⟩ = 30
            ∧ alertOf (percentileChange ⟨DriftRow.symbol ⟨"S", 80, 50⟩, 80, 50⟩)
                = Alert.deteriorated)) :=
  ⟨by decide, C3_drift_delta_and_alert [("S", 80)] [("S", 50)] ⟨"S", 80, 50⟩ (by decide)⟩

/-- C4: the percentile computation is deterministic and
order-insensitive: two universes that are permutations of each other
(the same multiset of rows in different order) assign every record the
identical percentile, hence the identical symbol-to-percentile
mapping. -/
theorem C4_percentile_order_insensitive (u1 u2 : List FundRecord)
    (h : u1.Perm u2) (r : FundRecord) :
    calculate_category_percentile u1 r = calculate_category_percentile u2 r := by
  have hg : (categoryGroup u1 r.category).Perm (categoryGroup u2 r.category) :=
    h.filter _
  have hsc : (scoredScores (categoryGroup u1 r.category)).Perm
      (scoredScores (categoryGroup u2 r.category)) := hg.filterMap _
  unfold calculate_category_percentile pandasRankDescPct
  cases r.score with
  | none => rfl
  | some v =>
    simp only [descAvgRank, countGreater, countTied, Option.some.injEq]
    rw [hsc.countP_eq, hsc.countP_eq, hsc.length_eq]

/-- Witness for C4 on a two-row universe and its reversal. -/
theorem C4_percentile_order_insensitive_witness :
    (List.Perm
        [(⟨"A", "FundA", "X", some 9⟩ : FundRecord), ⟨"B", "FundB", "X", some 5⟩]
        [(⟨"B", "FundB", "X", some 5⟩ : FundRecord), ⟨"A", "FundA", "X", some 9⟩])
    ∧ calculate_category_percentile
        [(⟨"A", "FundA", "X", some 9⟩ : FundRecord), ⟨"B", "FundB", "X", some 5⟩]
        ⟨"A", "FundA", "X", some 9⟩
      = calculate_category_percentile
        [(⟨"B", "FundB", "X", some 5⟩ : FundRecord), ⟨"A", "FundA", "X", some 9⟩]
        ⟨"A", "FundA", "X", some 9⟩ :=
  ⟨by decide,
    C4_percentile_order_insensitive
      [⟨"A", "FundA", "X", some 9⟩, ⟨"B", "FundB", "X", some 5⟩]
      [⟨"B", "FundB", "X", some 5⟩, ⟨"A", "FundA", "X", some 9⟩]
      (by decide) ⟨"A", "FundA", "X", some 9⟩⟩

/-- C5 counterexample: the only summary the load step reports is the
total row count, which is identical for a batch containing a NaN-scored
record and a batch containing none, even though their unscored counts
differ; so the caller is not told how many records were skipped.  The
NaN record itself silently keeps a NaN percentile. -/
theorem C5_unscored_not_reported_cex :
    loadMessageCount [(⟨"A", "FundA", "X", some 1⟩ : FundRecord), ⟨"B", "FundB", "X", none⟩]
      = loadMessageCount [(⟨"A", "FundA", "X", some 1⟩ : FundRecord), ⟨"B", "FundB", "X", some 2⟩]
    ∧ unscoredCount [(⟨"A", "FundA", "X", some 1⟩ : FundRecord), ⟨"B", "FundB", "X", none⟩] = 1
    ∧ unscoredCount [(⟨"A", "FundA", "X", some 1⟩ : FundRecord), ⟨"B", "FundB", "X", some 2⟩] = 0
    ∧ calculate_category_percentile
        [(⟨"A", "FundA", "X", some 1⟩ : FundRecord), ⟨"B", "FundB", "X", none⟩]
        ⟨"B", "FundB", "X", none⟩ = none := by
  refine ⟨rfl, rfl, rfl, rfl⟩

/-- C5 amended: a record whose composite score is missing (NaN) is
excluded from the ranking of its category (it gets a NaN percentile and
does not enter the denominator) without aborting the remaining records,
every scored record still receiving a percentile; but the load step
reports only the total row count, not an "unscored" report. -/
theorem C5_nan_excluded_without_abort (univ : List FundRecord) (r : FundRecord)
    (hr : r ∈ univ) :
    (r.score = none → calculate_category_percentile univ r = none)
    ∧ (∀ v : ℚ, r.score = some v → ∃ p : ℚ, calculate_category_percentile univ r = some p)
    ∧ loadMessageCount univ = univ.length := by
  refine ⟨?_, ?_, rfl⟩
  · intro hnone
    unfold calculate_category_percentile
    rw [hnone]
    rfl
  · intro v hv
    unfold calculate_category_percentile
    rw [hv]
    exact ⟨_, rfl⟩

/-- Witness for C5 on a two-record batch whose second record is
unscored. -/
theorem C5_nan_excluded_without_abort_witness :
    ((⟨"B", "FundB", "X", none⟩ : FundRecord)
        ∈ [(⟨"A", "FundA", "X", some 1⟩ : FundRecord), ⟨"B", "FundB", "X", none⟩])
    ∧ ((FundRecord.score ⟨"B", "FundB", "X", none⟩ = none →
          calculate_category_percentile
            [(⟨"A", "FundA", "X", some 1⟩ : FundRecord), ⟨"B", "FundB", "X", none⟩]
            ⟨"B", "FundB", "X", none⟩ = none)
        ∧ (∀ v : ℚ, FundRecord.score ⟨"B", "FundB", "X", none⟩ = some v →
            ∃ p : ℚ, calculate_category_percentile
              [(⟨"A", "FundA", "X", some 1⟩ : FundRecord), ⟨"B", "FundB", "X", none⟩]
              ⟨"B", "FundB", "X", none⟩ = some p)
        ∧ loadMessageCount
            [(⟨"A", "FundA", "X", some 1⟩ : FundRecord), ⟨"B", "FundB", "X", none⟩]
          = (List.length
              [(⟨"A", "FundA", "X", some 1⟩ : FundRecord), ⟨"B", "FundB", "X", none⟩])) :=
  ⟨by decide,
    C5_nan_excluded_without_abort
      [⟨"A", "FundA", "X", some 1⟩, ⟨"B", "FundB", "X", none⟩]
      ⟨"B", "FundB", "X", none⟩ (by decide)⟩

/-- C6 counterexample: two comparison inputs, one with no one-side-only
symbols and one with two of them, produce exactly the same comparison
rows and the same caller-visible drift report (flagged count plus
sorted alert table); the count of symbols present on only one side is
therefore not exposed to the caller. -/
theorem C6_unmatched_count_not_exposed_cex :
    innerJoinOnSymbol [("A", 80)] [("A", 50)]
      = innerJoinOnSymbol [("A", 80), ("B", 10)] [("A", 50), ("C", 20)]
    ∧ driftReport [("A", 80)] [("A", 50)]
      = driftReport [("A", 80), ("B", 10)] [("A", 50), ("C", 20)]
    ∧ specOneSideOnlyCount [("A", 80)] [("A", 50)] = 0
    ∧ specOneSideOnlyCount [("A", 80), ("B", 10)] [("A", 50), ("C", 20)] = 2 := by
  refine ⟨by decide, rfl, rfl, rfl⟩

/-- C6 amended: the quarter-over-quarter comparison joins the two
universes on symbol with inner-join semantics — its rows are exactly
the pairings of a current row and a previous row sharing a symbol, so
symbols present on only one side are excluded — but their count is not
reported; the only count the section reports is the number of flagged
funds. -/
theorem C6_inner_join_semantics (cur prev : List (String × ℚ)) (row : DriftRow) :
    (row ∈ innerJoinOnSymbol cur prev ↔
        ∃ c, c ∈ cur ∧ ∃ p, p ∈ prev ∧ p.1 = c.1 ∧ row = ⟨c.1, c.2, p.2⟩)
    ∧ (driftReport cur prev).1 = (driftAlerts (innerJoinOnSymbol cur prev)).length := by
  refine ⟨?_, rfl⟩
  unfold innerJoinOnSymbol
  constructor
  · intro hrow
    rcases List.mem_flatMap.1 hrow with ⟨c, hc, hmap⟩
    rcases List.mem_map.1 hmap with ⟨p, hp, hrow'⟩
    rcases List.mem_filter.1 hp with ⟨hpmem, hpeq⟩
    exact ⟨c, hc, p, hpmem, by simpa using hpeq, hrow'.symm⟩
  · rintro ⟨c, hc, p, hp, hpeq, hrow'⟩
    refine List.mem_flatMap.2 ⟨c, hc, List.mem_map.2 ⟨p, ?_, hrow'.symm⟩⟩
    exact List.mem_filter.2 ⟨hp, by simpa using hpeq⟩

/-- C7 counterexample: for a concrete comparison the full sequence of
drift rows is produced in join order, not ordered by delta descending
(deltas 0 then 80), and what is displayed is only the filtered alerts
subset; so the ordering contract does not hold for the entire output. -/
theorem C7_full_output_not_sorted_cex :
    innerJoinOnSymbol [("A", 10), ("B", 90)] [("A", 10), ("B", 10)]
      = [⟨"A", 10, 10⟩, ⟨"B", 90, 10⟩]
    ∧ ¬ List.Sorted deltaDescRel
        (innerJoinOnSymbol [("A", 10), ("B", 90)] [("A", 10), ("B", 10)])
    ∧ displayedAlerts [("A", 10), ("B", 90)] [("A", 10), ("B", 10)]
      = [⟨"B", 90, 10⟩] := by
  refine ⟨rfl, ?_, by with_unfolding_all rfl⟩
  intro hs
  rw [show innerJoinOnSymbol [("A", 10), ("B", 90)] [("A", 10), ("B", 10)]
      = [(⟨"A", 10, 10⟩ : DriftRow), ⟨"B", 90, 10⟩] from rfl] at hs
  have h := List.rel_of_sorted_cons hs ⟨"B", 90, 10⟩ (by simp)
  have h80 : (80 : ℚ) ≤ 0 := by
    simpa [deltaDescRel, percentileChange] using h
  norm_num at h80

/-- C7 amended: the drift table actually shown to the caller is the
filtered alerts subset (rows with change above 15), and that subset is
sorted by `Percentile_Change` descending; the full comparison sequence
is not sorted. -/
theorem C7_alerts_sorted_desc (cur prev : List (String × ℚ)) :
    List.Sorted deltaDescRel (displayedAlerts cur prev)
    ∧ (∀ row, row ∈ displayedAlerts cur prev → 15 < percentileChange row) := by
  constructor
  · exact List.sorted_insertionSort deltaDescRel _
  · intro row hrow
    have h1 : row ∈ driftAlerts (innerJoinOnSymbol cur prev) :=
      (List.mem_insertionSort deltaDescRel).1 hrow
    have h2 := (List.mem_filter.1 h1).2
    have h3 : alertOf (percentileChange row) = Alert.deteriorated
        ∨ alertOf (percentileChange row) = Alert.watchlist := by
      simpa [isFlagged] using h2
    rcases h3 with h3 | h3 <;>
      · unfold alertOf at h3
        split_ifs at h3 with ha hb hc <;> linarith

/-- Witness for C7 on a one-symbol comparison whose single row is
flagged. -/
theorem C7_alerts_sorted_desc_witness :
    List.Sorted deltaDescRel (displayedAlerts [("A", 80)] [("A", 50)])
    ∧ ((⟨"A", 80, 50⟩ : DriftRow) ∈ displayedAlerts [("A", 80)] [("A", 50)]
        → 15 < percentileChange ⟨"A", 80, 50⟩)
    ∧ ((⟨"A", 80, 50⟩ : DriftRow) ∈ displayedAlerts [("A", 80)] [("A", 50)]) :=
  ⟨(C7_alerts_sorted_desc [("A", 80)] [("A", 50)]).1,
    (C7_alerts_sorted_desc [("A", 80)] [("A", 50)]).2 ⟨"A", 80, 50⟩,
    by rw [show displayedAlerts [("A", 80)] [("A", 50)]
        = [(⟨"A", 80, 50⟩ : DriftRow)] from by with_unfolding_all rfl]
       exact List.mem_singleton.2 rfl⟩

/-- C8 counterexample: for an empty holdings list the reconciliation
produces the empty matched set and displays the count pair 0/0; no
coverage ratio is computed, and the ratio the displayed pair would
denote at that input is 0/0, which is not 1. -/
theorem C8_empty_holdings_cex :
    reconcileMatches ([] : List String) ["A", "B"] = ∅
    ∧ reconcileCounts ([] : List String) ["A", "B"] = (0, 0)
    ∧ ¬ (((0 : ℚ) / 0) = 1) := by
  refine ⟨by simp [reconcileMatches], ?_, by norm_num⟩
  simp [reconcileCounts, reconcileMatches]

/-- C8 amended: portfolio reconciliation computes the matched set as
the intersection of the unique holding tickers with the unique universe
symbols and reports the pair (matched count, holdings count) — no
ratio value — with matched count never exceeding holdings count; an
empty holdings list yields the empty matched set and the count pair
(0, 0) without any division error. -/
theorem C8_reconcile_counts_wellformed (holdings univSyms : List String) :
    (∀ s, s ∈ reconcileMatches holdings univSyms ↔ s ∈ holdings ∧ s ∈ univSyms)
    ∧ (reconcileCounts holdings univSyms).1 ≤ (reconcileCounts holdings univSyms).2
    ∧ reconcileMatches ([] : List String) univSyms = ∅
    ∧ reconcileCounts ([] : List String) univSyms = (0, 0) := by
  refine ⟨?_, ?_, ?_, ?_⟩
  · intro s
    simp [reconcileMatches]
  · exact Finset.card_le_card Finset.inter_subset_left
  · simp [reconcileMatches]
  · simp [reconcileCounts, reconcileMatches]

/-- C9 counterexample: a malformed weight table whose weights sum to 2
still loads successfully — the configuration module performs no
validation and raises nothing. -/
theorem C9_no_load_validation_cex :
    loadConfig [("bogus", 2)] [] = Except.ok ([("bogus", 2)], [])
    ∧ ((([(("bogus" : String), (2 : ℚ))]).map Prod.snd).sum ≠ 1) := by
  refine ⟨rfl, by norm_num⟩

/-- C9 amended: the configured weight table does contain exactly 11
distinct named metrics whose weights sum exactly to 1; but no
well-formedness validation runs at configuration load — loading any
candidate tables, well-formed or not, succeeds unconditionally. -/
theorem C9_weights_wellformed_but_unvalidated :
    METRIC_WEIGHTS.length = 11
    ∧ (METRIC_WEIGHTS.map Prod.snd).sum = 1
    ∧ (METRIC_WEIGHTS.map Prod.fst).Nodup
    ∧ (∀ w t : List (String × ℚ), loadConfig w t = Except.ok (w, t)) := by
  refine ⟨rfl, by norm_num [METRIC_WEIGHTS], by decide, fun w t => rfl⟩

/-- C10: a record whose composite score is NaN receives a NaN category
percentile, and because a NaN percentile fails both inclusive
upper-bound comparisons of the status lambda, the record falls through
to the final else branch and is classified Replace. -/
theorem C10_nan_percentile_gets_replace (univ : List FundRecord) (r : FundRecord)
    (hr : r ∈ univ) (hnan : r.score = none) :
    calculate_category_percentile univ r = none
    ∧ nanLE (calculate_category_percentile univ r) (thresholdOf eliteKey) = false
    ∧ nanLE (calculate_category_percentile univ r) (thresholdOf reviewKey) = false
    ∧ fundStatus (calculate_category_percentile univ r) = Tier.replace := by
  have h1 : calculate_category_percentile univ r = none := by
    unfold calculate_category_percentile
    rw [hnan]
    rfl
  rw [h1]
  exact ⟨rfl, rfl, rfl, rfl⟩

/-- Witness for C10 on a batch whose second record is unscored. -/
theorem C10_nan_percentile_gets_replace_witness :
    ((⟨"B", "FundB", "X", none⟩ : FundRecord)
        ∈ [(⟨"A", "FundA", "X", some 1⟩ : FundRecord), ⟨"B", "FundB", "X", none⟩])
    ∧ (FundRecord.score ⟨"B", "FundB", "X", none⟩ = none)
    ∧ (calculate_category_percentile
          [(⟨"A", "FundA", "X", some 1⟩ : FundRecord), ⟨"B", "FundB", "X", none⟩]
          ⟨"B", "FundB", "X", none⟩ = none
        ∧ nanLE (calculate_category_percentile
            [(⟨"A", "FundA", "X", some 1⟩ : FundRecord), ⟨"B", "FundB", "X", none⟩]
            ⟨"B", "FundB", "X", none⟩) (thresholdOf eliteKey) = false
        ∧ nanLE (calculate_category_percentile
            [(⟨"A", "FundA", "X", some 1⟩ : FundRecord), ⟨"B", "FundB", "X", none⟩]
            ⟨"B", "FundB", "X", none⟩) (thresholdOf reviewKey) = false
        ∧ fundStatus (calculate_category_percentile
            [(⟨"A", "FundA", "X", some 1⟩ : FundRecord), ⟨"B", "FundB", "X", none⟩]
            ⟨"B", "FundB", "X", none⟩) = Tier.replace) :=
  ⟨by decide, rfl,
    C10_nan_percentile_gets_replace
      [⟨"A", "FundA", "X", some 1⟩, ⟨"B", "FundB", "X", none⟩]
      ⟨"B", "FundB", "X", none⟩ (by decide) rfl⟩
